import Mathlib

/-
Verification of the Stillness Timer backend (backend.py).

The development shallowly embeds the backend's session-scoring, rate-limiting,
security-monitoring and persistence logic:

* `calculate_percentile` embeds the scoring function, including the exact
  IEEE-754 binary64 (double) rounding behaviour of the Python expression
  `int((shorter_sessions / len(all_durations)) * 100)`: `fl_div` and
  `fl_mul100` compute, in exact integer arithmetic, the round-to-nearest-even
  double results of the division and of the multiplication by 100 (all values
  involved are strictly inside the normal range of binary64, so neither
  overflow nor subnormals arise for any list a Python process can hold).
* `check_rate_limit`, `log_security_event`, `detect_attack_patterns`,
  `send_security_alert`, `validate_session_data`, `submit_session`, `home`
  and `get_stats` embed the corresponding functions over an explicit
  `ServerState` record holding the module-level dictionaries; Python dicts
  are insertion-ordered association lists, `time.time()` values are modelled
  as rationals.
* `save_data`/`load_data` embed persistence at the level of the JSON document
  (`JValue`); the byte serialisation performed by Python's `json` library is
  outside the repository and is modelled as the identity on documents.
-/

/-! ### Exact model of binary64 rounding for the percentile computation -/

/-- Round-to-nearest, ties-to-even, of the fraction `N / D` (for `D > 0`),
computed in integer arithmetic. -/
def rhe_div (N D : Nat) : Nat :=
  if 2 * (N % D) < D then N / D
  else if D < 2 * (N % D) then N / D + 1
  else if (N / D) % 2 = 0 then N / D else N / D + 1

/-- Fuel-driven base-2 logarithm so that kernel reduction is structural. -/
def nlog2Aux : Nat → Nat → Nat
  | 0, _ => 0
  | fuel+1, n => if 2 ≤ n then nlog2Aux fuel (n / 2) + 1 else 0

/-- `nlog2 n = ⌊log₂ n⌋` for `n ≥ 1` (and `0` for `n = 0`). -/
def nlog2 (n : Nat) : Nat := nlog2Aux n n

/-- Decide `2 ^ e ≤ s / n` by cross-multiplying, for `s, n ≥ 1`. -/
def pow2le (s n : Nat) (e : Int) : Bool :=
  if 0 ≤ e then n * 2 ^ e.toNat ≤ s else n ≤ s * 2 ^ (-e).toNat

/-- Correct a guess `g` for `⌊log₂ (s / n)⌋`: the largest `e` among
`g+1, g, g-1` with `2 ^ e ≤ s / n`. -/
def ilog2qAux (s n : Nat) (g : Int) : Int :=
  if pow2le s n (g+1) then g+1 else if pow2le s n g then g else g-1

/-- `⌊log₂ (s / n)⌋` for `s, n ≥ 1`: the guess `⌊log₂ s⌋ - ⌊log₂ n⌋` is off by
at most one, and `ilog2qAux` corrects it. -/
def ilog2q (s n : Nat) : Int :=
  match nlog2 s, nlog2 n with
  | a, b => ilog2qAux s n ((a : Int) - (b : Int))

/-- Significand of the binary64 nearest to `s / n`, given its exponent `e`:
`rhe (s / n * 2 ^ (52 - e))`.  The value represented is `m * 2 ^ (e - 52)`;
when rounding carries to `2 ^ 53` that value is still the correctly rounded
double, so no renormalisation is needed. -/
def pct_m1 (s n : Nat) (e : Int) : Nat :=
  if e ≤ 52 then rhe_div (s * 2 ^ (52 - e).toNat) n
  else rhe_div s (n * 2 ^ (e - 52).toNat)

/-- Significand of the binary64 nearest to `N * 2 ^ (e - 52)` where `N` is the
integer `m * 100` and `L = ⌊log₂ N⌋`; the new exponent is `L + e - 52`. -/
def pct_m2 (N : Nat) (L : Nat) : Nat :=
  if 52 ≤ L then rhe_div N (2 ^ (L - 52)) else N * 2 ^ (52 - L)

/-- Truncation to an integer (`int(...)` in Python) of the nonnegative double
`m2 * 2 ^ (e2 - 52)`. -/
def pct_fin (m2 : Nat) (e2 : Int) : Nat :=
  if 52 ≤ e2 then m2 * 2 ^ (e2 - 52).toNat else m2 / 2 ^ (52 - e2).toNat

/-- `int((s / n) * 100)` exactly as CPython evaluates it for `0 ≤ s ≤ n`,
`1 ≤ n`: the division and the multiplication each round to nearest-even in
binary64, then the result is truncated to an integer. -/
def pctSN (s n : Nat) : Nat :=
  if s = 0 then 0 else
  let e1 := ilog2q s n
  let m1 := pct_m1 s n e1
  let N := m1 * 100
  let L := nlog2 N
  let m2 := pct_m2 N L
  pct_fin m2 ((L : Int) + e1 - 52)

/-- Force a natural number to a literal before it is duplicated by
call-by-name reduction (semantically the identity, see `forceN_eq`). -/
def forceN (n : Nat) (k : Nat → Nat) : Nat :=
  match n with
  | 0 => k 0
  | m+1 => k (m+1)

/-- Force an integer to a literal (semantically the identity, `forceZ_eq`). -/
def forceZ (e : Int) (k : Int → Nat) : Nat :=
  match e with
  | .ofNat m => k (.ofNat m)
  | .negSucc m => k (.negSucc m)

/-- Evaluation-friendly form of `pctSN`, used only to make the finite check
below feasible for definitional reduction; `pctSNfast_eq` proves it equal. -/
def pctSNfast (s n : Nat) : Nat :=
  if s = 0 then 0 else
  forceZ (ilog2q s n) (fun e1 =>
  forceN (pct_m1 s n e1) (fun m1 =>
  forceN (m1 * 100) (fun N =>
  forceN (nlog2 N) (fun L =>
  forceN (pct_m2 N L) (fun m2 =>
  pct_fin m2 ((L : Int) + e1 - 52))))))

/-- `calculate_percentile` from backend.py: 50 for an empty comparison set,
otherwise the double-precision evaluation of
`int((shorter_sessions / len(all_durations)) * 100)` where
`shorter_sessions` counts entries strictly below `duration`. -/
def calculate_percentile (duration : Int) (all_durations : List Int) : Int :=
  if all_durations = [] then 50
  else
    ((pctSN ((all_durations.filter (fun d => d < duration)).length)
        all_durations.length : Nat) : Int)

/-! Bounded check that for every `1 ≤ n ≤ 99` and `0 ≤ s ≤ n` the computed
percentile is `⌊100 s / n⌋` or one less, and at most 100. -/

/-- One instance of the bound check (both arguments arrive as literals). -/
def okPF : Nat → Nat → Bool
  | 0, f => f ≤ 1
  | p+1, f => (f ≤ p+2) && (p+1 ≤ f) && (p+1 ≤ 100)

def pctOkAt (s n : Nat) : Bool := okPF (pctSNfast s n) ((100 * s) / n)

def pctCheckS : Nat → Nat → Bool
  | _, 0 => true
  | n, s+1 => pctOkAt (s+1) n && pctCheckS n s

def pctCheckAll : Nat → Bool
  | 0 => true
  | n+1 => pctCheckS (n+1) (n+1) && pctCheckAll n

/-! ### Server state and the security/rate-limiting operations -/

def MAX_REQUESTS_PER_MINUTE : Nat := 10

def MAX_SESSION_DURATION : Int := 14400

def MIN_SESSION_DURATION : Int := 1

def MAX_SESSIONS_PER_DAY : Nat := 100

def ENABLE_EMAIL_ALERTS : Bool := false

/-- Update (or, for a fresh key, append) an entry of an insertion-ordered
dictionary, mirroring assignment into a Python dict. -/
def setD {α : Type} : List (String × α) → String → α → List (String × α)
  | [], k, v => [(k, v)]
  | (k', v') :: rest, k, v =>
    if k' = k then (k, v) :: rest else (k', v') :: setD rest k v

/-- Read a key with a default, mirroring `dict.get` / `defaultdict` reads. -/
def lookupD {α : Type} (l : List (String × α)) (k : String) (v : α) : α :=
  (l.lookup k).getD v

/-- An entry of `ATTACK_PATTERNS[ip]`: the dict
`{'type': ..., 'time': ..., 'details': ...}`. -/
structure SecEvent where
  etype : String
  time : ℚ
  details : String
deriving DecidableEq

/-- One line written by `log_security_event` (the IP is truncated to its
first 8 characters in the log text). -/
structure LogRec where
  etype : String
  ip8 : String
  details : String
  severity : String
deriving DecidableEq

/-- An alert actually emitted by `send_security_alert` (console or email). -/
structure Alert where
  subject : String
  atype : String
deriving DecidableEq

/-- The module-level mutable state of backend.py.  Python dicts preserve
insertion order, hence association lists; `BLOCKED_IPS` is a set, modelled as
a duplicate-free list in insertion order. -/
structure ServerState where
  sessions_by_date : List (String × List Int)
  rate_limit_storage : List (String × List ℚ)
  ip_violations : List (String × Nat)
  blocked_ips : List String
  attack_patterns : List (String × List SecEvent)
  alert_cooldown : List (String × ℚ)
deriving DecidableEq

/-- `send_security_alert(subject, message, alert_type)`.  With email alerts
disabled (the shipped configuration) the function prints the alert and
returns before the cooldown logic; with them enabled, an alert for a key
`f"{alert_type}_{subject}"` seen less than 300 seconds after the recorded
emission time is dropped, otherwise the time is recorded and the alert sent.
Returns whether the alert was emitted (printed or mailed) and the updated
`ALERT_COOLDOWN`; the email body text is irrelevant to the state and is
abstracted. -/
def send_security_alert (enabled : Bool) (cooldown : List (String × ℚ)) (now : ℚ)
    (subject message alert_type : String) : Bool × List (String × ℚ) :=
  if !enabled then (true, cooldown)
  else
    match cooldown.lookup (alert_type ++ "_" ++ subject) with
    | some t =>
      if now - t < 300 then (false, cooldown)
      else (true, setD cooldown (alert_type ++ "_" ++ subject) now)
    | none => (true, setD cooldown (alert_type ++ "_" ++ subject) now)

/-- `log_security_event(event_type, ip, details, severity)`: append the event
to `ATTACK_PATTERNS[ip]`, prune events older than 24 hours from every IP and
drop empty keys, and for the three counted event types increment
`IP_VIOLATIONS[ip]`, alerting at exactly 5 and blocking plus alerting at 10
or more.  Returns the new state, the log lines written, and the alerts
emitted (the email bodies, which embed reprs of recent events, are
abstracted). -/
def log_security_event (now : ℚ) (event_type ip details severity : String)
    (st : ServerState) : ServerState × List LogRec × List Alert :=
  let logLine : LogRec := ⟨event_type, ip.take 8, details, severity⟩
  let pats0 := setD st.attack_patterns ip
      (lookupD st.attack_patterns ip [] ++ [⟨event_type, now, details⟩])
  let pats := (pats0.map (fun p => (p.1, p.2.filter (fun e => now - 86400 < e.time)))).filter
      (fun p => !p.2.isEmpty)
  if event_type ∈ ["RATE_LIMIT_EXCEEDED", "INVALID_DATA", "BLOCKED_IP"] then
    let v := lookupD st.ip_violations ip 0 + 1
    let viols := setD st.ip_violations ip v
    if v = 5 then
      let r := send_security_alert ENABLE_EMAIL_ALERTS st.alert_cooldown now
          ("Repeated violations from IP " ++ ip.take 8 ++ "...")
          ("IP " ++ ip ++ " has violated security rules 5 times.") "moderate"
      (⟨st.sessions_by_date, st.rate_limit_storage, viols, st.blocked_ips, pats, r.2⟩,
       [logLine],
       if r.1 then [⟨"Repeated violations from IP " ++ ip.take 8 ++ "...", "moderate"⟩] else [])
    else if 10 ≤ v then
      let blocked := if ip ∈ st.blocked_ips then st.blocked_ips else st.blocked_ips ++ [ip]
      let r := send_security_alert ENABLE_EMAIL_ALERTS st.alert_cooldown now
          ("IP " ++ ip.take 8 ++ "... BLOCKED")
          ("IP " ++ ip ++ " has been automatically blocked.") "critical"
      (⟨st.sessions_by_date, st.rate_limit_storage, viols, blocked, pats, r.2⟩,
       [logLine],
       if r.1 then [⟨"IP " ++ ip.take 8 ++ "... BLOCKED", "critical"⟩] else [])
    else
      (⟨st.sessions_by_date, st.rate_limit_storage, viols, st.blocked_ips, pats,
          st.alert_cooldown⟩, [logLine], [])
  else
    (⟨st.sessions_by_date, st.rate_limit_storage, st.ip_violations, st.blocked_ips, pats,
        st.alert_cooldown⟩, [logLine], [])

/-- The `'INVALID' in e['type']` substring test. -/
def containsINVALID (s : String) : Bool := 2 ≤ (s.splitOn "INVALID").length

/-- `detect_attack_patterns(ip)`: heuristics over the recorded history; each
branch logs its own event (none of whose types is counted as a violation)
and returns `True`; the fall-through returns `False` (the early `return`
for an untracked IP returns `None`, also modelled as `false` — the caller
ignores the value). -/
def detect_attack_patterns (now : ℚ) (ip : String) (st : ServerState) :
    ServerState × List LogRec × List Alert × Bool :=
  match st.attack_patterns.lookup ip with
  | none => (st, [], [], false)
  | some recent_events =>
    let recent_minute := recent_events.filter (fun e => now - e.time < 60)
    if 20 < recent_minute.length then
      let r := log_security_event now "RAPID_FIRE_ATTACK" ip
          (toString recent_minute.length ++ " requests in 1 minute") "CRITICAL" st
      (r.1, r.2.1, r.2.2, true)
    else
      let recent_hour := recent_events.filter (fun e => now - e.time < 3600)
      if 50 < recent_hour.length then
        let r := log_security_event now "POSSIBLE_SCRAPING" ip
            (toString recent_hour.length ++ " requests in 1 hour") "ERROR" st
        (r.1, r.2.1, r.2.2, true)
      else
        let invalid_types := (((recent_events.drop (recent_events.length - 10)).filter
            (fun e => containsINVALID e.etype)).map (fun e => e.etype)).dedup
        if 3 ≤ invalid_types.length then
          let r := log_security_event now "SYSTEMATIC_PROBING" ip
              "Multiple attack types" "ERROR" st
          (r.1, r.2.1, r.2.2, true)
        else (st, [], [], false)

/-- `check_rate_limit(ip_address)`: a blocked IP is rejected up front (the
rejection itself logged as `BLOCKED_IP_ACCESS`); otherwise entries older
than 60 seconds are popped from the front of the client's queue, a queue
still at the limit rejects (and the eviction is visible in the stored
queue), and otherwise the current time is appended and the call accepts. -/
def check_rate_limit (now : ℚ) (ip_address : String) (st : ServerState) :
    Bool × ServerState × List LogRec × List Alert :=
  if ip_address ∈ st.blocked_ips then
    let r := log_security_event now "BLOCKED_IP_ACCESS" ip_address
        "Blocked IP attempted access" "CRITICAL" st
    (false, r.1, r.2.1, r.2.2)
  else
    let ip_requests := ((st.rate_limit_storage.lookup ip_address).getD []).dropWhile
        (fun t => decide (60 < now - t))
    if MAX_REQUESTS_PER_MINUTE ≤ ip_requests.length then
      let st1 : ServerState := ⟨st.sessions_by_date,
          setD st.rate_limit_storage ip_address ip_requests,
          st.ip_violations, st.blocked_ips, st.attack_patterns, st.alert_cooldown⟩
      let r := log_security_event now "RATE_LIMIT_EXCEEDED" ip_address
          (toString ip_requests.length ++ " requests in 1 minute") "WARNING" st1
      let r2 := detect_attack_patterns now ip_address r.1
      (false, r2.1, r.2.1 ++ r2.2.1, r.2.2 ++ r2.2.2.1)
    else
      (true, ⟨st.sessions_by_date,
          setD st.rate_limit_storage ip_address (ip_requests ++ [now]),
          st.ip_violations, st.blocked_ips, st.attack_patterns, st.alert_cooldown⟩, [], [])

/-- A sequence of `check_rate_limit` calls from one client, keeping only the
evolving state (the scenario of repeated requests). -/
def crlFold (ip : String) (st : ServerState) (ts : List ℚ) : ServerState :=
  ts.foldl (fun s t => (check_rate_limit t ip s).2.1) st

/-! ### Request payloads, validation, scoring message, and the POST handler -/

/-- The parse result of an ISO-8601 `timestamp` string: its signed offset in
seconds from the server's current time (`(timestamp - now).total_seconds()`
after dropping tzinfo) and its calendar date key
(`timestamp.date().isoformat()`). -/
structure TSpec where
  offsetFromNow : ℚ
  dateKey : String
deriving DecidableEq

/-- Outcome of `int(data['duration'])` on a present field: `coerced v` when
the coercion returns `v`; `badNumber` when it raises `ValueError` or
`TypeError` (non-numeric strings, `None`, lists, ...), which the source
catches; `overflow` when it raises an exception outside that tuple — e.g.
`OverflowError` on the JSON `Infinity` float — which the source does not
catch. -/
inductive DurVal where
  | coerced (v : Int)
  | badNumber
  | overflow
deriving DecidableEq

/-- Outcome of `datetime.fromisoformat(x.replace('Z', '+00:00'))` on a
present `timestamp` field: `notAString` when the value has no `.replace`
method (any non-string JSON value, such as `null` or a number), so an
`AttributeError` is raised that the `(ValueError, TypeError)` handler does
not catch; `unparsable` when a string fails to parse (`ValueError`,
caught); `parsed t` on success. -/
inductive TsVal where
  | notAString
  | unparsable
  | parsed (t : TSpec)
deriving DecidableEq

/-- A JSON body for `POST /api/session`, at the granularity the handler
inspects it: `duration = none` and `timestamp = none` model absent fields,
present fields carry the outcome of the coercion or parse the source
applies to them.  A non-dict body is modelled as `none` at the use sites. -/
structure SessionPayload where
  duration : Option DurVal
  timestamp : Option TsVal
deriving DecidableEq

/-- `validate_session_data(data)`: returns the `(bool, reason)` pair of the
source — the payload must be a dict, `duration` must coerce to an integer
in `[MIN_SESSION_DURATION, MAX_SESSION_DURATION]`, and any `timestamp` must
parse and lie within 24 hours (86400 seconds) of the current time — or
`Except.error` carrying the name of an exception the source fails to catch:
`OverflowError` escaping the `int(...)` coercion, and `AttributeError` from
`.replace` on a non-string timestamp, raised before `fromisoformat` and not
matched by the `except (ValueError, TypeError)` clause.  Either error
propagates out of the function in the source. -/
def validate_session_data (data : Option SessionPayload) :
    Except String (Bool × String) :=
  match data with
  | none => .ok (false, "Invalid data format")
  | some d =>
    match d.duration with
    | none => .ok (false, "Duration is required")
    | some .badNumber => .ok (false, "Duration must be a number")
    | some .overflow => .error "OverflowError"
    | some (.coerced dur) =>
      if dur < MIN_SESSION_DURATION then
        .ok (false, "Duration too short (minimum: " ++ toString MIN_SESSION_DURATION ++ "s)")
      else if MAX_SESSION_DURATION < dur then
        .ok (false, "Duration too long (maximum: " ++ toString MAX_SESSION_DURATION ++
            "s = 4 hours)")
      else
        match d.timestamp with
        | none => .ok (true, "Valid")
        | some .notAString => .error "AttributeError"
        | some .unparsable => .ok (false, "Invalid timestamp format")
        | some (.parsed t) =>
          if 86400 < |t.offsetFromNow| then
            .ok (false, "Timestamp too far from current time")
          else .ok (true, "Valid")

/-- `generate_message(duration, percentile, total_sessions)`: the tier table
on the percentile.  As in the source, `time_str` is computed but appears in
none of the returned messages, and `total_sessions` is unused; the messages
reproduce the source strings byte for byte (including their mojibake dash). -/
def generate_message (duration : Int) (percentile : Int) (total_sessions : Nat) : String :=
  let hours := duration.fdiv 3600
  let minutes := (duration.fmod 3600).fdiv 60
  let seconds := duration.fmod 60
  let time_str :=
    if 0 < hours then
      toString hours ++ "h " ++ toString minutes ++ "m " ++ toString seconds ++ "s"
    else if 0 < minutes then toString minutes ++ "m " ++ toString seconds ++ "s"
    else toString seconds ++ "s"
  if 99 ≤ percentile then
    "welcome to the nothing club ‚Äì you are in the top 1% of users."
  else if 95 ≤ percentile then
    "stillness like this is rare ‚Äì you're in the top " ++ toString (100 - percentile) ++
      "% of users."
  else if 90 ≤ percentile then
    "exceptional focus ‚Äì you outlasted " ++ toString percentile ++ "% of users today."
  else if 75 ≤ percentile then
    "you were more still than " ++ toString percentile ++ "% of users today."
  else if 50 ≤ percentile then
    "good practice ‚Äì you were more still than " ++ toString percentile ++
      "% of users today."
  else if 25 ≤ percentile then "every moment of stillness counts. keep practicing."
  else "stillness is a practice. this is a beautiful start."

/-- `int(data['duration'])` as evaluated after successful validation (the
fallback is unreachable there). -/
def payloadDuration (data : Option SessionPayload) : Int :=
  match data with
  | some d =>
    match d.duration with
    | some (.coerced v) => v
    | _ => 0
  | none => 0

/-- The date key the handler attributes the session to: the parsed
timestamp's date when a `timestamp` field is present (after successful
validation it parses), otherwise `datetime.now()`'s date. -/
def payloadDateKey (data : Option SessionPayload) (nowDateKey : String) : String :=
  match data with
  | some d =>
    match d.timestamp with
    | some (.parsed t) => t.dateKey
    | some _ => nowDateKey
    | none => nowDateKey
  | none => nowDateKey

/-- The JSON response of `POST /api/session`: either the success body or an
`{"error": msg}` body with its HTTP status code. -/
inductive ApiResponse where
  | ok (message : String) (duration : Int) (percentile : Int) (sessions_today : Nat)
      (total_sessions : Nat)
  | error (msg : String) (code : Nat)
deriving DecidableEq

/-- `sum(len(sessions) for sessions in sessions_by_date.values())`. -/
def totalSessions (m : List (String × List Int)) : Nat :=
  (m.map (fun p => p.2.length)).sum

/-- `submit_session()`: rate-limit check (which itself rejects blocked IPs),
content-type check, validation, daily-limit check, then append, score and
respond.  `now`/`nowDateKey` are `time.time()`/`datetime.now().date()` of the
request; the model makes explicit that the empty bucket created for a fresh
date key never faces the daily-limit rejection (0 < 100), so creating it at
append time is observationally identical to the source's creation just
before the limit check.  An exception escaping validation (the
`Except.error` outcomes) reaches the handler's final `except Exception`
branch, which answers 500 "Internal server error".  The file write of
`save_data` does not change the in-memory state and failures of it are
swallowed, so it does not appear. -/
def submit_session (st : ServerState) (now : ℚ) (nowDateKey : String) (client_ip : String)
    (is_json : Bool) (data : Option SessionPayload) :
    ApiResponse × ServerState × List LogRec × List Alert :=
  let rl := check_rate_limit now client_ip st
  let st1 := rl.2.1
  if !rl.1 then (.error "Rate limit exceeded. Try again later." 429, st1, rl.2.2.1, rl.2.2.2)
  else if !is_json then
    (.error "Content-Type must be application/json" 400, st1, rl.2.2.1, rl.2.2.2)
  else
    match validate_session_data data with
    | .error _ =>
      (.error "Internal server error" 500, st1, rl.2.2.1, rl.2.2.2)
    | .ok vres =>
    if !vres.1 then
      let r := log_security_event now "INVALID_DATA" client_ip vres.2 "WARNING" st1
      (.error vres.2 400, r.1, rl.2.2.1 ++ r.2.1, rl.2.2.2 ++ r.2.2)
    else
      let duration := payloadDuration data
      let today := payloadDateKey data nowDateKey
      let bucket := (st1.sessions_by_date.lookup today).getD []
      if MAX_SESSIONS_PER_DAY ≤ bucket.length then
        let r := log_security_event now "DAILY_LIMIT_EXCEEDED" client_ip
            (toString bucket.length ++ " sessions attempted") "WARNING" st1
        (.error "Daily session limit reached. Try again tomorrow." 429, r.1,
         rl.2.2.1 ++ r.2.1, rl.2.2.2 ++ r.2.2)
      else
        let newBucket := bucket ++ [duration]
        let st2 : ServerState := ⟨setD st1.sessions_by_date today newBucket,
            st1.rate_limit_storage, st1.ip_violations, st1.blocked_ips,
            st1.attack_patterns, st1.alert_cooldown⟩
        let today_sessions := newBucket.dropLast
        let percentile := calculate_percentile duration today_sessions
        let message := generate_message duration percentile today_sessions.length
        (.ok message duration percentile newBucket.length
            (totalSessions st2.sessions_by_date), st2, rl.2.2.1, rl.2.2.2)

/-! ### The GET handlers -/

/-- Round-half-to-even of a rational to an integer. -/
def rhe_q (x : ℚ) : Int :=
  if x - ⌊x⌋ < 1/2 then ⌊x⌋
  else if 1/2 < x - ⌊x⌋ then ⌊x⌋ + 1
  else if ⌊x⌋ % 2 = 0 then ⌊x⌋ else ⌊x⌋ + 1

/-- Python's `round(x, 1)`, modelled on exact rationals (Python rounds the
binary64 value; no claim depends on a specific rounded value). -/
def roundPy1 (x : ℚ) : ℚ := (rhe_q (10 * x) : ℚ) / 10

/-- `max(l)` for the non-empty lists behind the source's emptiness guards. -/
def maxList (l : List Int) : Int :=
  match l with
  | [] => 0
  | x :: xs => xs.foldl max x

/-- The body of `GET /`. -/
structure HomeResponse where
  status : String
  today_sessions : Nat
  total_sessions : Nat
  average_today : ℚ
deriving DecidableEq

/-- `home()`: the health summary, reading only `sessions_by_date` (with
`todayKey` standing for `date.today().isoformat()`). -/
def home (st : ServerState) (todayKey : String) : HomeResponse :=
  let today_sessions := (st.sessions_by_date.lookup todayKey).getD []
  ⟨"üßò Stillness API is running",
   today_sessions.length,
   totalSessions st.sessions_by_date,
   if !today_sessions.isEmpty then roundPy1 ((today_sessions.sum : ℚ) / today_sessions.length)
   else 0⟩

/-- One of the two aggregate blocks of `GET /api/stats`. -/
structure DayStats where
  sessions : Nat
  average : ℚ
  longest : Int
deriving DecidableEq

/-- The body of `GET /api/stats` (`all_time.sessions` is the field the source
names `total_sessions`). -/
structure StatsResponse where
  today : DayStats
  all_time : DayStats
deriving DecidableEq

/-- `get_stats()`: today's and the all-time aggregates, reading only
`sessions_by_date`. -/
def get_stats (st : ServerState) (todayKey : String) : StatsResponse :=
  let today_sessions := (st.sessions_by_date.lookup todayKey).getD []
  let all_sessions := (st.sessions_by_date.map (fun p => p.2)).flatten
  ⟨⟨today_sessions.length,
    if !today_sessions.isEmpty then
      roundPy1 ((today_sessions.sum : ℚ) / today_sessions.length)
    else 0,
    if !today_sessions.isEmpty then maxList today_sessions else 0⟩,
   ⟨all_sessions.length,
    if !all_sessions.isEmpty then roundPy1 ((all_sessions.sum : ℚ) / all_sessions.length)
    else 0,
    if !all_sessions.isEmpty then maxList all_sessions else 0⟩⟩

/-! ### Persistence: the JSON snapshot -/

/-- A JSON document. -/
inductive JValue where
  | jnull
  | jbool (b : Bool)
  | jnum (n : Int)
  | jstr (s : String)
  | jarr (elems : List JValue)
  | jobj (fields : List (String × JValue))

/-- `save_data()`: the JSON document `json.dump` writes for the session
store — a single object mapping each date key to the array of its integer
durations.  The byte serialisation performed by the `json` library is
outside the repository and is the identity on documents of this shape. -/
def save_data (sessions : List (String × List Int)) : JValue :=
  .jobj (sessions.map (fun p => (p.1, .jarr (p.2.map JValue.jnum))))

/-- Read a JSON array of numbers back as the list of durations. -/
def decodeDurations : List JValue → Option (List Int)
  | [] => some []
  | .jnum n :: rest => (decodeDurations rest).map (fun l => n :: l)
  | _ => none

/-- Read the fields of the snapshot object back as the date → durations map. -/
def decodeStore : List (String × JValue) → Option (List (String × List Int))
  | [] => some []
  | (k, .jarr xs) :: rest =>
    match decodeDurations xs with
    | some l => (decodeStore rest).map (fun m => (k, l) :: m)
    | none => none
  | _ => none

/-- `load_data()`: `json.load` of the snapshot document interpreted as the
in-memory mapping, with the source's failure fallback to an empty store. -/
def load_data : JValue → List (String × List Int)
  | .jobj fields => (decodeStore fields).getD []
  | _ => []

/-! ### Theorems -/

theorem forceN_eq (n : Nat) (k : Nat → Nat) : forceN n k = k n := by
  cases n <;> rfl

theorem forceZ_eq (e : Int) (k : Int → Nat) : forceZ e k = k e := by
  cases e <;> rfl

theorem pctSNfast_eq (s n : Nat) : pctSNfast s n = pctSN s n := by
  unfold pctSNfast pctSN
  simp only [forceN_eq, forceZ_eq]

set_option maxRecDepth 1000000 in
set_option maxHeartbeats 4000000 in
theorem pctCheckAll_99 : pctCheckAll 99 = true := by decide

theorem okPF_spec (p f : Nat) (h : okPF p f = true) :
    p ≤ f ∧ f ≤ p + 1 ∧ p ≤ 100 := by
  cases p with
  | zero => simp only [okPF, decide_eq_true_eq] at h; exact ⟨Nat.zero_le _, by omega, by omega⟩
  | succ q =>
    simp only [okPF, Bool.and_eq_true, decide_eq_true_eq] at h
    exact ⟨h.1.2, by omega, h.2⟩

theorem pctCheckS_spec (n : Nat) : ∀ s, pctCheckS n s = true →
    ∀ j, 1 ≤ j → j ≤ s → pctOkAt j n = true := by
  intro s
  induction s with
  | zero => intro _ j h1 h2; omega
  | succ t ih =>
    intro h j h1 h2
    simp only [pctCheckS, Bool.and_eq_true] at h
    rcases Nat.lt_or_ge j (t+1) with hlt | hge
    · exact ih h.2 j h1 (by omega)
    · have : j = t + 1 := by omega
      simpa [this] using h.1

theorem pctCheckAll_spec (m : Nat) : pctCheckAll m = true →
    ∀ n, 1 ≤ n → n ≤ m → pctCheckS n n = true := by
  induction m with
  | zero => intro _ n h1 h2; omega
  | succ t ih =>
    intro h n h1 h2
    simp only [pctCheckAll, Bool.and_eq_true] at h
    rcases Nat.lt_or_ge n (t+1) with hlt | hge
    · exact ih h.2 n h1 (by omega)
    · have : n = t + 1 := by omega
      simpa [this] using h.1

theorem pct_bounds (s n : Nat) (h1 : 1 ≤ n) (h2 : n ≤ 99) (h3 : s ≤ n) :
    pctSN s n ≤ (100 * s) / n ∧ (100 * s) / n ≤ pctSN s n + 1 ∧ pctSN s n ≤ 100 := by
  rcases Nat.eq_zero_or_pos s with hs | hs
  · subst hs
    have hz : pctSN 0 n = 0 := by simp [pctSN]
    simp [hz, Nat.zero_le]
  · have hchk := pctCheckAll_spec 99 pctCheckAll_99 n h1 h2
    have hok := pctCheckS_spec n n hchk s hs h3
    have := okPF_spec (pctSNfast s n) ((100 * s) / n) (by simpa [pctOkAt] using hok)
    rwa [pctSNfast_eq] at this

/-- Claim C1 (amended): for any duration `d` and any list `S` of same-day
prior durations (at most 99 entries, as the daily cap guarantees for the
comparison set of any stored session), the percentile lies in `[0, 100]`,
equals 50 when `S` is empty, and when `S` is non-empty equals the
double-precision evaluation of `int(100 * |{x ∈ S : x < d}| / |S|)`, which is
`⌊100 * |{x ∈ S : x < d}| / |S|⌋` or that value minus one; ties with `d`
count as not-shorter. -/
theorem claim_C1 (d : Int) (S : List Int) (h : S.length ≤ 99) :
    (0 ≤ calculate_percentile d S ∧ calculate_percentile d S ≤ 100) ∧
    (S = [] → calculate_percentile d S = 50) ∧
    (S ≠ [] →
      calculate_percentile d S ≤
          (((100 * (S.filter (fun x => x < d)).length) / S.length : Nat) : Int) ∧
      (((100 * (S.filter (fun x => x < d)).length) / S.length : Nat) : Int) ≤
          calculate_percentile d S + 1) := by
  rcases eq_or_ne S [] with hS | hS
  · subst hS
    refine ⟨⟨by norm_num [calculate_percentile], by norm_num [calculate_percentile]⟩,
      fun _ => by norm_num [calculate_percentile], fun hne => absurd rfl hne⟩
  · have hlen : 1 ≤ S.length := by
      cases S with
      | nil => exact absurd rfl hS
      | cons a t => simp
    have hfil : (S.filter (fun x => x < d)).length ≤ S.length :=
      List.length_filter_le _ _
    have hb := pct_bounds ((S.filter (fun x => x < d)).length) S.length hlen h hfil
    have hcp : calculate_percentile d S =
        ((pctSN ((S.filter (fun x => x < d)).length) S.length : Nat) : Int) := by
      simp [calculate_percentile, hS]
    refine ⟨⟨by rw [hcp]; exact_mod_cast Int.ofNat_nonneg _, ?_⟩, fun h' => absurd h' hS, fun _ => ⟨?_, ?_⟩⟩
    · rw [hcp]; exact_mod_cast hb.2.2
    · rw [hcp]; exact_mod_cast hb.1
    · rw [hcp]; exact_mod_cast hb.2.1

theorem claim_C1_witness :
    (([1, 5] : List Int).length ≤ 99) ∧
    ((0 ≤ calculate_percentile 3 [1, 5] ∧ calculate_percentile 3 [1, 5] ≤ 100) ∧
    (([1, 5] : List Int) = [] → calculate_percentile 3 [1, 5] = 50) ∧
    (([1, 5] : List Int) ≠ [] →
      calculate_percentile 3 [1, 5] ≤
          (((100 * (([1, 5] : List Int).filter (fun x => x < 3)).length) /
            ([1, 5] : List Int).length : Nat) : Int) ∧
      (((100 * (([1, 5] : List Int).filter (fun x => x < 3)).length) /
            ([1, 5] : List Int).length : Nat) : Int) ≤
          calculate_percentile 3 [1, 5] + 1)) :=
  ⟨by decide, claim_C1 3 [1, 5] (by decide)⟩

set_option maxRecDepth 100000 in
/-- Claim C1, counterexample to the exact-floor formula as stated: with 50
prior durations of which 29 are shorter than the new duration 2, the code
returns 57 while `⌊100 * 29 / 50⌋ = 58` (the two binary64 roundings in
`(29 / 50) * 100` land just below 58). -/
theorem claim_C1_counterexample :
    ((List.replicate 29 (1 : Int) ++ List.replicate 21 3).filter
        (fun x => x < 2)).length = 29 ∧
    (List.replicate 29 (1 : Int) ++ List.replicate 21 3).length = 50 ∧
    calculate_percentile 2 (List.replicate 29 (1 : Int) ++ List.replicate 21 3) = 57 ∧
    ((100 * 29) / 50 : Nat) = 58 := by
  refine ⟨by decide, by decide, ?_, by decide⟩
  decide

/-! ### Dictionary lemmas -/

theorem lookup_setD {α : Type} (l : List (String × α)) (k : String) (v : α) :
    (setD l k v).lookup k = some v := by
  induction l with
  | nil => simp [setD, List.lookup]
  | cons p rest ih =>
    obtain ⟨k', v'⟩ := p
    by_cases h : k' = k
    · simp [setD, h, List.lookup]
    · simp only [setD, if_neg h, List.lookup]
      have : (k == k') = false := by
        simp [beq_iff_eq]
        exact fun hk => h hk.symm
      simp [this, ih]

theorem lookup_setD_ne {α : Type} (l : List (String × α)) (k k' : String) (v : α)
    (h : k' ≠ k) : (setD l k v).lookup k' = l.lookup k' := by
  induction l with
  | nil =>
    have : (k' == k) = false := by simp [beq_iff_eq, h]
    simp [setD, List.lookup, this]
  | cons p rest ih =>
    obtain ⟨k0, v0⟩ := p
    by_cases h0 : k0 = k
    · subst h0
      have : (k' == k0) = false := by simp [beq_iff_eq, h]
      simp [setD, List.lookup, this]
    · simp only [setD, if_neg h0, List.lookup, ih]

/-! ### Claim C2: the encouragement message -/

/-- Claim C2: the encouragement message is a function of the percentile
alone (the duration and session count never influence it), and each boundary
percentile 99, 95, 90, 75, 50 selects the message of the tier whose
threshold it meets, with 25 and 24 exercising the two lowest tiers. -/
theorem claim_C2 :
    (∀ (p d d' : Int) (t t' : Nat), generate_message d p t = generate_message d' p t') ∧
    (∀ (d : Int) (t : Nat),
      generate_message d 99 t =
        "welcome to the nothing club ‚Äì you are in the top 1% of users." ∧
      generate_message d 95 t =
        "stillness like this is rare ‚Äì you're in the top 5% of users." ∧
      generate_message d 90 t =
        "exceptional focus ‚Äì you outlasted 90% of users today." ∧
      generate_message d 75 t = "you were more still than 75% of users today." ∧
      generate_message d 50 t =
        "good practice ‚Äì you were more still than 50% of users today." ∧
      generate_message d 25 t = "every moment of stillness counts. keep practicing." ∧
      generate_message d 24 t = "stillness is a practice. this is a beautiful start.") :=
  ⟨fun _ _ _ _ _ => rfl, fun _ _ => ⟨rfl, rfl, rfl, rfl, rfl, rfl, rfl⟩⟩

/-! ### Claim C8: snapshot round-trip -/

theorem decodeDurations_map (l : List Int) :
    decodeDurations (l.map JValue.jnum) = some l := by
  induction l with
  | nil => rfl
  | cons x xs ih => simp [decodeDurations, ih]

theorem decodeStore_map (m : List (String × List Int)) :
    decodeStore (m.map (fun p => (p.1, JValue.jarr (p.2.map JValue.jnum)))) = some m := by
  induction m with
  | nil => rfl
  | cons p rest ih =>
    obtain ⟨k, v⟩ := p
    simp [decodeStore, decodeDurations_map, ih]

/-- Claim C8: saving any session store to the JSON snapshot and loading it
back reproduces the identical date → durations mapping. -/
theorem claim_C8 (sessions : List (String × List Int)) :
    load_data (save_data sessions) = sessions := by
  simp [load_data, save_data, decodeStore_map]

/-! ### Claim C9: alert cooldown -/

/-- Claim C9 (amended): with email alerts enabled, once an alert for a
(type, subject) pair is emitted, a further alert for the same pair strictly
within 300 seconds is suppressed (and the recorded time is unchanged), while
one arriving 300 or more seconds later is emitted again; but in the shipped
configuration (`ENABLE_EMAIL_ALERTS = false`) the cooldown logic is bypassed
and every alert is emitted. -/
theorem claim_C9 :
    (∀ (m : List (String × ℚ)) (t : ℚ) (s msg a : String),
      send_security_alert ENABLE_EMAIL_ALERTS m t s msg a = (true, m)) ∧
    (∀ (m : List (String × ℚ)) (t1 t2 : ℚ) (s msg msg' a : String),
      (send_security_alert true m t1 s msg a).1 = true →
      (t2 - t1 < 300 →
        send_security_alert true (send_security_alert true m t1 s msg a).2 t2 s msg' a =
          (false, (send_security_alert true m t1 s msg a).2)) ∧
      (300 ≤ t2 - t1 →
        (send_security_alert true (send_security_alert true m t1 s msg a).2 t2 s msg' a).1 =
          true)) := by
  constructor
  · intro m t s msg a
    rfl
  · intro m t1 t2 s msg msg' a hem
    have hsnd : (send_security_alert true m t1 s msg a).2 =
        setD m (a ++ "_" ++ s) t1 := by
      simp only [send_security_alert, Bool.not_true, Bool.false_eq_true, if_false]
      cases hl : m.lookup (a ++ "_" ++ s) with
      | none => rfl
      | some t =>
        by_cases hc : t1 - t < 300
        · simp only [send_security_alert, hl, if_pos hc] at hem
          exact absurd hem (by simp)
        · simp [hl, if_neg hc]
    constructor
    · intro hlt
      rw [hsnd]
      simp only [send_security_alert, Bool.not_true, Bool.false_eq_true, if_false,
        lookup_setD, if_pos hlt]
    · intro hge
      rw [hsnd]
      have : ¬(t2 - t1 < 300) := not_lt.mpr hge
      simp only [send_security_alert, Bool.not_true, Bool.false_eq_true, if_false,
        lookup_setD, if_neg this]

theorem claim_C9_witness :
    (send_security_alert true [] 0 "s" "m" "a").1 = true ∧
    (((400 : ℚ) - 0 < 300 →
      send_security_alert true (send_security_alert true [] 0 "s" "m" "a").2 400 "s" "m2" "a" =
        (false, (send_security_alert true [] 0 "s" "m" "a").2)) ∧
     (300 ≤ (400 : ℚ) - 0 →
      (send_security_alert true (send_security_alert true [] 0 "s" "m" "a").2 400 "s" "m2" "a").1 =
        true)) :=
  ⟨rfl, claim_C9.2 [] 0 400 "s" "m" "m2" "a" rfl⟩

/-- Claim C9, counterexample to the claim as stated: with the shipped
configuration constant `ENABLE_EMAIL_ALERTS` (false), an alert for the same
(type, subject) pair sent 10 seconds after an emission is emitted again
rather than suppressed — the cooldown only governs the email path. -/
theorem claim_C9_counterexample :
    (send_security_alert ENABLE_EMAIL_ALERTS [] 0 "subj" "msg" "security").1 = true ∧
    (send_security_alert ENABLE_EMAIL_ALERTS
        (send_security_alert ENABLE_EMAIL_ALERTS [] 0 "subj" "msg" "security").2
        10 "subj" "msg" "security").1 = true :=
  ⟨rfl, rfl⟩

/-! ### Claim C10: the GET handlers ignore blocking and rate state -/

/-- Claim C10: `home` and `get_stats` read only the session store, so two
states agreeing on `sessions_by_date` (however their blocked set,
rate-limit storage or violation counters differ) produce identical
responses; a blocked or rate-limited client still gets the same health
summary and statistics. -/
theorem claim_C10 (st1 st2 : ServerState) (todayKey : String)
    (h : st1.sessions_by_date = st2.sessions_by_date) :
    home st1 todayKey = home st2 todayKey ∧
    get_stats st1 todayKey = get_stats st2 todayKey := by
  unfold home get_stats
  rw [h]
  exact ⟨rfl, rfl⟩

theorem claim_C10_witness :
    (ServerState.mk [("2024-01-15", [60, 120])] [] [] [] [] []).sessions_by_date =
      (ServerState.mk [("2024-01-15", [60, 120])] [("1.2.3.4", [5])] [("1.2.3.4", 11)]
        ["1.2.3.4"] [] []).sessions_by_date ∧
    (home (ServerState.mk [("2024-01-15", [60, 120])] [] [] [] [] []) "2024-01-15" =
      home (ServerState.mk [("2024-01-15", [60, 120])] [("1.2.3.4", [5])] [("1.2.3.4", 11)]
        ["1.2.3.4"] [] []) "2024-01-15" ∧
     get_stats (ServerState.mk [("2024-01-15", [60, 120])] [] [] [] [] []) "2024-01-15" =
      get_stats (ServerState.mk [("2024-01-15", [60, 120])] [("1.2.3.4", [5])] [("1.2.3.4", 11)]
        ["1.2.3.4"] [] []) "2024-01-15") :=
  ⟨rfl, claim_C10 _ _ "2024-01-15" rfl⟩

/-! ### Claim C7: session payload validation -/

/-- Claim C7 (amended): validation returns success exactly when the payload
is a mapping whose `duration` coerces to an integer in `[1, 14400]` and
whose `timestamp`, when present, is a string parsing to a datetime within
24 hours of the server's current time; the failure modes the source
catches (non-dict body, missing duration, coercion raising
`ValueError`/`TypeError`, out-of-range duration, unparsable timestamp
string, far-off timestamp) each carry their own reason string, and an
absent timestamp makes the handler attribute the session to the server's
current date.  But two failure modes escape: a duration whose coercion
raises outside `(ValueError, TypeError)` (e.g. `OverflowError` on JSON
`Infinity`) and a present non-string timestamp (`AttributeError` from
`.replace`) propagate out of validation, and the POST handler then answers
the generic 500 "Internal server error" instead of a specific reason. -/
theorem claim_C7 :
    (∀ data : Option SessionPayload,
      validate_session_data data = Except.ok (true, "Valid") ↔
        ∃ p, data = some p ∧ ∃ v, p.duration = some (DurVal.coerced v) ∧
          MIN_SESSION_DURATION ≤ v ∧ v ≤ MAX_SESSION_DURATION ∧
          (p.timestamp = none ∨
            ∃ t, p.timestamp = some (TsVal.parsed t) ∧ |t.offsetFromNow| ≤ 86400)) ∧
    validate_session_data none = Except.ok (false, "Invalid data format") ∧
    (∀ p : SessionPayload, p.duration = none →
      validate_session_data (some p) = Except.ok (false, "Duration is required")) ∧
    (∀ p : SessionPayload, p.duration = some DurVal.badNumber →
      validate_session_data (some p) = Except.ok (false, "Duration must be a number")) ∧
    (∀ (p : SessionPayload) (v : Int), p.duration = some (DurVal.coerced v) →
      v < MIN_SESSION_DURATION →
      validate_session_data (some p) =
        Except.ok (false, "Duration too short (minimum: 1s)")) ∧
    (∀ (p : SessionPayload) (v : Int), p.duration = some (DurVal.coerced v) →
      MAX_SESSION_DURATION < v →
      validate_session_data (some p) =
        Except.ok (false, "Duration too long (maximum: 14400s = 4 hours)")) ∧
    (∀ (p : SessionPayload) (v : Int), p.duration = some (DurVal.coerced v) →
      MIN_SESSION_DURATION ≤ v → v ≤ MAX_SESSION_DURATION →
      p.timestamp = some TsVal.unparsable →
      validate_session_data (some p) = Except.ok (false, "Invalid timestamp format")) ∧
    (∀ (p : SessionPayload) (v : Int) (t : TSpec), p.duration = some (DurVal.coerced v) →
      MIN_SESSION_DURATION ≤ v → v ≤ MAX_SESSION_DURATION →
      p.timestamp = some (TsVal.parsed t) → 86400 < |t.offsetFromNow| →
      validate_session_data (some p) =
        Except.ok (false, "Timestamp too far from current time")) ∧
    (∀ p : SessionPayload, p.duration = some DurVal.overflow →
      validate_session_data (some p) = Except.error "OverflowError") ∧
    (∀ (p : SessionPayload) (v : Int), p.duration = some (DurVal.coerced v) →
      MIN_SESSION_DURATION ≤ v → v ≤ MAX_SESSION_DURATION →
      p.timestamp = some TsVal.notAString →
      validate_session_data (some p) = Except.error "AttributeError") ∧
    (∀ (st : ServerState) (now : ℚ) (nowKey ip : String) (data : Option SessionPayload)
        (e : String), (check_rate_limit now ip st).1 = true →
      validate_session_data data = Except.error e →
      (submit_session st now nowKey ip true data).1 =
        ApiResponse.error "Internal server error" 500) ∧
    (["Invalid data format", "Duration is required", "Duration must be a number",
      "Duration too short (minimum: 1s)", "Duration too long (maximum: 14400s = 4 hours)",
      "Invalid timestamp format", "Timestamp too far from current time"] :
        List String).Nodup ∧
    "Internal server error" ∉
      (["Invalid data format", "Duration is required", "Duration must be a number",
        "Duration too short (minimum: 1s)", "Duration too long (maximum: 14400s = 4 hours)",
        "Invalid timestamp format", "Timestamp too far from current time"] :
          List String) ∧
    (∀ (p : SessionPayload) (nowKey : String), p.timestamp = none →
      payloadDateKey (some p) nowKey = nowKey) := by
  refine ⟨?_, rfl, ?_, ?_, ?_, ?_, ?_, ?_, ?_, ?_, ?_, by decide, by decide, ?_⟩
  · intro data
    rcases data with _ | ⟨dur, ts⟩
    · simp [validate_session_data]
    · rcases dur with _ | dv
      · simp [validate_session_data]
      · cases dv with
        | badNumber => simp [validate_session_data]
        | overflow => simp [validate_session_data]
        | coerced v =>
          rcases ts with _ | tv
          · simp only [validate_session_data, MIN_SESSION_DURATION, MAX_SESSION_DURATION]
            split_ifs with h1 h2 <;> simp <;> omega
          · cases tv with
            | notAString =>
              simp only [validate_session_data, MIN_SESSION_DURATION, MAX_SESSION_DURATION]
              split_ifs with h1 h2 <;> simp
            | unparsable =>
              simp only [validate_session_data, MIN_SESSION_DURATION, MAX_SESSION_DURATION]
              split_ifs with h1 h2 <;> simp
            | parsed t =>
              simp only [validate_session_data, MIN_SESSION_DURATION, MAX_SESSION_DURATION]
              split_ifs with h1 h2 h3 <;> simp
              · omega
              · omega
              · intro _ _
                exact h3
              · exact ⟨by omega, by omega, le_of_not_lt h3⟩
  · rintro ⟨dur, ts⟩ hd
    simp only at hd
    subst hd
    rfl
  · rintro ⟨dur, ts⟩ hd
    simp only at hd
    subst hd
    rfl
  · rintro ⟨dur, ts⟩ v hd hv
    simp only at hd
    subst hd
    simp only [validate_session_data]
    rw [if_pos hv]
    rfl
  · rintro ⟨dur, ts⟩ v hd hv
    simp only at hd
    subst hd
    have h1 : ¬v < MIN_SESSION_DURATION := by
      simp only [MIN_SESSION_DURATION, MAX_SESSION_DURATION] at hv ⊢
      omega
    simp only [validate_session_data]
    rw [if_neg h1, if_pos hv]
    rfl
  · rintro ⟨dur, ts⟩ v hd hlo hhi ht
    simp only at hd ht
    subst hd
    subst ht
    have h1 : ¬v < MIN_SESSION_DURATION := not_lt.mpr hlo
    have h2 : ¬MAX_SESSION_DURATION < v := not_lt.mpr hhi
    simp only [validate_session_data]
    rw [if_neg h1, if_neg h2]
  · rintro ⟨dur, ts⟩ v t hd hlo hhi ht habs
    simp only at hd ht
    subst hd
    subst ht
    have h1 : ¬v < MIN_SESSION_DURATION := not_lt.mpr hlo
    have h2 : ¬MAX_SESSION_DURATION < v := not_lt.mpr hhi
    simp only [validate_session_data]
    rw [if_neg h1, if_neg h2]
    simp only [if_pos habs]
  · rintro ⟨dur, ts⟩ hd
    simp only at hd
    subst hd
    rfl
  · rintro ⟨dur, ts⟩ v hd hlo hhi ht
    simp only at hd ht
    subst hd
    subst ht
    have h1 : ¬v < MIN_SESSION_DURATION := not_lt.mpr hlo
    have h2 : ¬MAX_SESSION_DURATION < v := not_lt.mpr hhi
    simp only [validate_session_data]
    rw [if_neg h1, if_neg h2]
  · intro st now nowKey ip data e hrl hval
    simp only [submit_session, hrl, hval, Bool.not_true, Bool.false_eq_true, if_false]
  · rintro ⟨dur, ts⟩ nowKey ht
    simp only at ht
    subst ht
    rfl

theorem claim_C7_witness :
    (validate_session_data (some ⟨some (DurVal.coerced 120), none⟩) =
        Except.ok (true, "Valid") ↔
      ∃ p, (some ⟨some (DurVal.coerced 120), none⟩ : Option SessionPayload) = some p ∧
        ∃ v, p.duration = some (DurVal.coerced v) ∧
          MIN_SESSION_DURATION ≤ v ∧ v ≤ MAX_SESSION_DURATION ∧
          (p.timestamp = none ∨
            ∃ t, p.timestamp = some (TsVal.parsed t) ∧ |t.offsetFromNow| ≤ 86400)) ∧
    ((⟨none, none⟩ : SessionPayload).duration = none ∧
      validate_session_data (some ⟨none, none⟩) =
        Except.ok (false, "Duration is required")) :=
  ⟨claim_C7.1 (some ⟨some (DurVal.coerced 120), none⟩),
   ⟨rfl, claim_C7.2.2.1 ⟨none, none⟩ rfl⟩⟩

/-- Claim C7, counterexample to the claim as stated: the plain-JSON payload
`{"duration": 60, "timestamp": null}` has a present timestamp on which
`.replace` raises `AttributeError` — uncaught by the
`except (ValueError, TypeError)` clause — and `{"duration": Infinity}`
makes `int(...)` raise `OverflowError`; both escape validation, and the
handler answers the generic 500 "Internal server error" rather than
rejecting with the failure mode's own specific reason string (such as
"Invalid timestamp format" with status 400). -/
theorem claim_C7_counterexample :
    validate_session_data (some ⟨some (DurVal.coerced 60), some TsVal.notAString⟩) =
      Except.error "AttributeError" ∧
    validate_session_data (some ⟨some DurVal.overflow, none⟩) =
      Except.error "OverflowError" ∧
    (submit_session (ServerState.mk [] [] [] [] [] []) 0 "2024-01-15" "203.0.113.5" true
        (some ⟨some (DurVal.coerced 60), some TsVal.notAString⟩)).1 =
      ApiResponse.error "Internal server error" 500 ∧
    ApiResponse.error "Internal server error" 500 ≠
      ApiResponse.error "Invalid timestamp format" 400 :=
  ⟨rfl, rfl, rfl, by decide⟩

/-! ### Frame lemmas for the monitoring operations -/

theorem send_disabled (c : List (String × ℚ)) (t : ℚ) (s m a : String) :
    send_security_alert ENABLE_EMAIL_ALERTS c t s m a = (true, c) := rfl

theorem log_sessions_eq (now : ℚ) (e ip d sev : String) (st : ServerState) :
    (log_security_event now e ip d sev st).1.sessions_by_date = st.sessions_by_date := by
  simp only [log_security_event]
  split
  · split
    · rfl
    · split
      · rfl
      · rfl
  · rfl

theorem log_rls_eq (now : ℚ) (e ip d sev : String) (st : ServerState) :
    (log_security_event now e ip d sev st).1.rate_limit_storage = st.rate_limit_storage := by
  simp only [log_security_event]
  split
  · split
    · rfl
    · split
      · rfl
      · rfl
  · rfl

theorem log_logs_eq (now : ℚ) (e ip d sev : String) (st : ServerState) :
    (log_security_event now e ip d sev st).2.1 = [⟨e, ip.take 8, d, sev⟩] := by
  simp only [log_security_event]
  split
  · split
    · rfl
    · split
      · rfl
      · rfl
  · rfl

theorem log_blocked_mono (now : ℚ) (e ip d sev : String) (st : ServerState) :
    st.blocked_ips ⊆ (log_security_event now e ip d sev st).1.blocked_ips := by
  intro x hx
  simp only [log_security_event]
  split
  · split
    · exact hx
    · split
      · by_cases hip : ip ∈ st.blocked_ips
        · simp only [if_pos hip]
          exact hx
        · simp only [if_neg hip]
          exact List.mem_append_left _ hx
      · exact hx
  · exact hx

theorem detect_sessions_eq (now : ℚ) (ip : String) (st : ServerState) :
    (detect_attack_patterns now ip st).1.sessions_by_date = st.sessions_by_date := by
  simp only [detect_attack_patterns]
  split
  · rfl
  · split
    · exact log_sessions_eq _ _ _ _ _ _
    · split
      · exact log_sessions_eq _ _ _ _ _ _
      · split
        · exact log_sessions_eq _ _ _ _ _ _
        · rfl

theorem detect_rls_eq (now : ℚ) (ip : String) (st : ServerState) :
    (detect_attack_patterns now ip st).1.rate_limit_storage = st.rate_limit_storage := by
  simp only [detect_attack_patterns]
  split
  · rfl
  · split
    · exact log_rls_eq _ _ _ _ _ _
    · split
      · exact log_rls_eq _ _ _ _ _ _
      · split
        · exact log_rls_eq _ _ _ _ _ _
        · rfl

theorem detect_blocked_mono (now : ℚ) (ip : String) (st : ServerState) :
    st.blocked_ips ⊆ (detect_attack_patterns now ip st).1.blocked_ips := by
  simp only [detect_attack_patterns]
  split
  · exact fun x hx => hx
  · split
    · exact log_blocked_mono _ _ _ _ _ _
    · split
      · exact log_blocked_mono _ _ _ _ _ _
      · split
        · exact log_blocked_mono _ _ _ _ _ _
        · exact fun x hx => hx

theorem crl_sessions_eq (now : ℚ) (ip : String) (st : ServerState) :
    (check_rate_limit now ip st).2.1.sessions_by_date = st.sessions_by_date := by
  simp only [check_rate_limit]
  split
  · exact log_sessions_eq _ _ _ _ _ _
  · split
    · rw [detect_sessions_eq, log_sessions_eq]
    · rfl

theorem crl_blocked_mono (now : ℚ) (ip : String) (st : ServerState) :
    st.blocked_ips ⊆ (check_rate_limit now ip st).2.1.blocked_ips := by
  simp only [check_rate_limit]
  split
  · exact log_blocked_mono _ _ _ _ _ _
  · split
    · intro x hx
      exact detect_blocked_mono _ _ _ (log_blocked_mono _ _ _ _ _ _ hx)
    · exact fun x hx => hx

theorem submit_blocked_mono (st : ServerState) (now : ℚ) (nowDateKey client_ip : String)
    (is_json : Bool) (data : Option SessionPayload) :
    st.blocked_ips ⊆
      (submit_session st now nowDateKey client_ip is_json data).2.1.blocked_ips := by
  simp only [submit_session]
  split
  · exact crl_blocked_mono _ _ _
  · split
    · exact crl_blocked_mono _ _ _
    · split
      · exact crl_blocked_mono _ _ _
      · split
        · intro x hx
          exact log_blocked_mono _ _ _ _ _ _ (crl_blocked_mono _ _ _ hx)
        · split
          · intro x hx
            exact log_blocked_mono _ _ _ _ _ _ (crl_blocked_mono _ _ _ hx)
          · exact crl_blocked_mono _ _ _

/-! ### Claim C5: violation counting and escalation -/

theorem log_viols_mem (now : ℚ) (e ip d sev : String) (st : ServerState)
    (h : e ∈ (["RATE_LIMIT_EXCEEDED", "INVALID_DATA", "BLOCKED_IP"] : List String)) :
    (log_security_event now e ip d sev st).1.ip_violations =
      setD st.ip_violations ip (lookupD st.ip_violations ip 0 + 1) := by
  simp only [log_security_event]
  rw [if_pos h]
  split
  · rfl
  · split
    · rfl
    · rfl

theorem log_viols_not_mem (now : ℚ) (e ip d sev : String) (st : ServerState)
    (h : e ∉ (["RATE_LIMIT_EXCEEDED", "INVALID_DATA", "BLOCKED_IP"] : List String)) :
    (log_security_event now e ip d sev st).1.ip_violations = st.ip_violations := by
  simp only [log_security_event]
  rw [if_neg h]

/-- Claim C5 (amended): recording a security event increments the client's
violation counter exactly when its type is one of the three literals
`RATE_LIMIT_EXCEEDED`, `INVALID_DATA`, `BLOCKED_IP`; the event actually
logged when a blocked client attempts access is `BLOCKED_IP_ACCESS`, which
is not in that list and does not increment.  On an increment reaching
exactly 5 a "moderate" alert is emitted, and at 10 or more the client is
added to the blocked set and a "critical" alert is emitted. -/
theorem claim_C5 (st : ServerState) (now : ℚ) (etype ip details severity : String) :
    (etype ∈ (["RATE_LIMIT_EXCEEDED", "INVALID_DATA", "BLOCKED_IP"] : List String) →
      lookupD (log_security_event now etype ip details severity st).1.ip_violations ip 0 =
        lookupD st.ip_violations ip 0 + 1) ∧
    (etype ∉ (["RATE_LIMIT_EXCEEDED", "INVALID_DATA", "BLOCKED_IP"] : List String) →
      (log_security_event now etype ip details severity st).1.ip_violations =
        st.ip_violations) ∧
    "BLOCKED_IP_ACCESS" ∉ (["RATE_LIMIT_EXCEEDED", "INVALID_DATA", "BLOCKED_IP"] :
      List String) ∧
    (etype ∈ (["RATE_LIMIT_EXCEEDED", "INVALID_DATA", "BLOCKED_IP"] : List String) →
      lookupD st.ip_violations ip 0 + 1 = 5 →
      (log_security_event now etype ip details severity st).2.2 =
        [⟨"Repeated violations from IP " ++ ip.take 8 ++ "...", "moderate"⟩]) ∧
    (etype ∈ (["RATE_LIMIT_EXCEEDED", "INVALID_DATA", "BLOCKED_IP"] : List String) →
      10 ≤ lookupD st.ip_violations ip 0 + 1 →
      ip ∈ (log_security_event now etype ip details severity st).1.blocked_ips ∧
      (log_security_event now etype ip details severity st).2.2 =
        [⟨"IP " ++ ip.take 8 ++ "... BLOCKED", "critical"⟩]) := by
  refine ⟨?_, ?_, by decide, ?_, ?_⟩
  · intro h
    rw [log_viols_mem now etype ip details severity st h]
    simp [lookupD, lookup_setD]
  · intro h
    exact log_viols_not_mem now etype ip details severity st h
  · intro h h5
    simp only [log_security_event]
    rw [if_pos h, if_pos h5]
    rfl
  · intro h h10
    have h5 : ¬lookupD st.ip_violations ip 0 + 1 = 5 := by omega
    simp only [log_security_event]
    rw [if_pos h, if_neg h5, if_pos h10]
    constructor
    · by_cases hip : ip ∈ st.blocked_ips
      · simp only [if_pos hip]
        exact hip
      · simp only [if_neg hip]
        exact List.mem_append_right _ (List.mem_singleton.mpr rfl)
    · rfl

theorem claim_C5_witness :
    ("INVALID_DATA" ∈ (["RATE_LIMIT_EXCEEDED", "INVALID_DATA", "BLOCKED_IP"] :
        List String)) ∧
    lookupD (log_security_event 0 "INVALID_DATA" "a" "d" "WARNING"
        (ServerState.mk [] [] [("a", 3)] [] [] [])).1.ip_violations "a" 0 =
      lookupD (ServerState.mk [] [] [("a", 3)] [] [] []).ip_violations "a" 0 + 1 :=
  ⟨by decide,
   (claim_C5 (ServerState.mk [] [] [("a", 3)] [] [] []) 0 "INVALID_DATA" "a" "d"
     "WARNING").1 (by decide)⟩

/-- Claim C5, counterexample to the claim as stated: logging the
blocked-IP-access event (`BLOCKED_IP_ACCESS`, the type actually produced
when a blocked client attempts access) does not increment the violation
counter — it stays 0 where the claim requires 1 — because the increment
list contains the never-emitted literal `BLOCKED_IP` instead. -/
theorem claim_C5_counterexample :
    lookupD (log_security_event 0 "BLOCKED_IP_ACCESS" "198.51.100.7"
        "Blocked IP attempted access" "CRITICAL"
        (ServerState.mk [] [] [] [] [] [])).1.ip_violations "198.51.100.7" 0 = 0 ∧
    lookupD (ServerState.mk [] [] [] [] [] []).ip_violations "198.51.100.7" 0 + 1 = 1 ∧
    (0 : Nat) ≠ 1 := by
  refine ⟨?_, rfl, by decide⟩
  rw [log_viols_not_mem 0 "BLOCKED_IP_ACCESS" "198.51.100.7" "Blocked IP attempted access"
    "CRITICAL" (ServerState.mk [] [] [] [] [] []) (by decide)]
  rfl

/-! ### Claim C6: permanence of blocking -/

/-- Claim C6: no modelled operation ever removes a client from the blocked
set, and a blocked client is rejected by `check_rate_limit` before the
sliding-window logic runs (its stored queue is untouched), with the
rejection logged under the distinct event type `BLOCKED_IP_ACCESS`; the
POST handler then returns the rate-limit error regardless of content type or
payload, so neither rate-limit evaluation nor validation influences the
response. -/
theorem claim_C6 :
    (∀ (now : ℚ) (e ip d sev : String) (st : ServerState),
      st.blocked_ips ⊆ (log_security_event now e ip d sev st).1.blocked_ips) ∧
    (∀ (now : ℚ) (ip : String) (st : ServerState),
      st.blocked_ips ⊆ (detect_attack_patterns now ip st).1.blocked_ips) ∧
    (∀ (now : ℚ) (ip : String) (st : ServerState),
      st.blocked_ips ⊆ (check_rate_limit now ip st).2.1.blocked_ips) ∧
    (∀ (st : ServerState) (now : ℚ) (k ip : String) (j : Bool)
        (data : Option SessionPayload),
      st.blocked_ips ⊆ (submit_session st now k ip j data).2.1.blocked_ips) ∧
    (∀ (now : ℚ) (ip : String) (st : ServerState), ip ∈ st.blocked_ips →
      (check_rate_limit now ip st).1 = false ∧
      (check_rate_limit now ip st).2.1.rate_limit_storage = st.rate_limit_storage ∧
      (check_rate_limit now ip st).2.2.1 =
        [⟨"BLOCKED_IP_ACCESS", ip.take 8, "Blocked IP attempted access", "CRITICAL"⟩]) ∧
    (∀ (st : ServerState) (now : ℚ) (k ip : String) (j j' : Bool)
        (data data' : Option SessionPayload), ip ∈ st.blocked_ips →
      (submit_session st now k ip j data).1 =
        ApiResponse.error "Rate limit exceeded. Try again later." 429 ∧
      (submit_session st now k ip j data).1 = (submit_session st now k ip j' data').1) := by
  refine ⟨fun now e ip d sev st => log_blocked_mono now e ip d sev st,
    fun now ip st => detect_blocked_mono now ip st,
    fun now ip st => crl_blocked_mono now ip st,
    fun st now k ip j data => submit_blocked_mono st now k ip j data, ?_, ?_⟩
  · intro now ip st h
    have hc : check_rate_limit now ip st =
        (false, (log_security_event now "BLOCKED_IP_ACCESS" ip
            "Blocked IP attempted access" "CRITICAL" st).1,
          (log_security_event now "BLOCKED_IP_ACCESS" ip
            "Blocked IP attempted access" "CRITICAL" st).2.1,
          (log_security_event now "BLOCKED_IP_ACCESS" ip
            "Blocked IP attempted access" "CRITICAL" st).2.2) := by
      simp only [check_rate_limit]
      rw [if_pos h]
    rw [hc]
    exact ⟨rfl, log_rls_eq _ _ _ _ _ _, log_logs_eq _ _ _ _ _ _⟩
  · intro st now k ip j j' data data' h
    have hfalse : (check_rate_limit now ip st).1 = false := by
      simp only [check_rate_limit]
      rw [if_pos h]
    have he : ∀ (jj : Bool) (dd : Option SessionPayload),
        (submit_session st now k ip jj dd).1 =
          ApiResponse.error "Rate limit exceeded. Try again later." 429 := by
      intro jj dd
      simp [submit_session, hfalse]
    exact ⟨he j data, (he j data).trans (he j' data').symm⟩

theorem claim_C6_witness :
    ("b" ∈ (ServerState.mk [] [] [] ["b"] [] []).blocked_ips) ∧
    ((check_rate_limit 0 "b" (ServerState.mk [] [] [] ["b"] [] [])).1 = false ∧
     (check_rate_limit 0 "b" (ServerState.mk [] [] [] ["b"] [] [])).2.1.rate_limit_storage =
       (ServerState.mk [] [] [] ["b"] [] []).rate_limit_storage ∧
     (check_rate_limit 0 "b" (ServerState.mk [] [] [] ["b"] [] [])).2.2.1 =
       [⟨"BLOCKED_IP_ACCESS", ("b" : String).take 8, "Blocked IP attempted access",
         "CRITICAL"⟩]) :=
  ⟨by decide, claim_C6.2.2.2.2.1 0 "b" (ServerState.mk [] [] [] ["b"] [] []) (by decide)⟩

/-! ### Claim C4: failed submissions never mutate the session store -/

/-- Claim C4: every error response from the POST handler (blocked client,
rate limit, wrong content type, validation failure or uncaught validation
exception, daily limit) leaves the session store exactly as it was; in
particular a submission aimed at a date whose bucket already holds
`MAX_SESSIONS_PER_DAY` sessions is rejected with the 429 daily-limit error
— never a 400 validation error — and the bucket keeps its prior contents. -/
theorem claim_C4 (st : ServerState) (now : ℚ) (nowKey ip : String) (is_json : Bool)
    (data : Option SessionPayload) :
    (∀ msg code, (submit_session st now nowKey ip is_json data).1 =
        ApiResponse.error msg code →
      (submit_session st now nowKey ip is_json data).2.1.sessions_by_date =
        st.sessions_by_date) ∧
    (∀ b, st.sessions_by_date.lookup (payloadDateKey data nowKey) = some b →
      MAX_SESSIONS_PER_DAY ≤ b.length →
      (check_rate_limit now ip st).1 = true → is_json = true →
      validate_session_data data = Except.ok (true, "Valid") →
      (submit_session st now nowKey ip is_json data).1 =
        ApiResponse.error "Daily session limit reached. Try again tomorrow." 429 ∧
      (∀ m : String, (submit_session st now nowKey ip is_json data).1 ≠
        ApiResponse.error m 400) ∧
      (submit_session st now nowKey ip is_json data).2.1.sessions_by_date =
        st.sessions_by_date ∧
      (submit_session st now nowKey ip is_json data).2.1.sessions_by_date.lookup
          (payloadDateKey data nowKey) = some b) := by
  constructor
  · intro msg code h
    by_cases hrl : (check_rate_limit now ip st).1 = true
    case neg =>
      have hrl' : (check_rate_limit now ip st).1 = false := by
        revert hrl
        cases (check_rate_limit now ip st).1 <;> simp
      simp only [submit_session, hrl', Bool.not_false, if_true]
      exact crl_sessions_eq _ _ _
    case pos =>
      by_cases hj : is_json = true
      case neg =>
        have hj' : is_json = false := by
          revert hj
          cases is_json <;> simp
        simp only [submit_session, hrl, hj', Bool.not_true, Bool.not_false,
          Bool.false_eq_true, if_false, if_true]
        exact crl_sessions_eq _ _ _
      case pos =>
        rcases hval : validate_session_data data with e | vres
        · simp only [submit_session, hrl, hj, hval, Bool.not_true, Bool.false_eq_true,
            if_false]
          exact crl_sessions_eq _ _ _
        · obtain ⟨vb, vmsg⟩ := vres
          cases vb with
          | false =>
            simp only [submit_session, hrl, hj, hval, Bool.not_true, Bool.not_false,
              Bool.false_eq_true, if_false, if_true]
            rw [log_sessions_eq]
            exact crl_sessions_eq _ _ _
          | true =>
            by_cases hd : MAX_SESSIONS_PER_DAY ≤
                (((check_rate_limit now ip st).2.1.sessions_by_date.lookup
                  (payloadDateKey data nowKey)).getD []).length
            case pos =>
              simp only [submit_session, hrl, hj, hval, Bool.not_true, Bool.false_eq_true,
                if_false, if_pos hd]
              rw [log_sessions_eq]
              exact crl_sessions_eq _ _ _
            case neg =>
              simp only [submit_session, hrl, hj, hval, Bool.not_true, Bool.false_eq_true,
                if_false, if_neg hd] at h
              exact ApiResponse.noConfusion h
  · intro b hb hlen hrl hj hv
    have hsess : (check_rate_limit now ip st).2.1.sessions_by_date = st.sessions_by_date :=
      crl_sessions_eq _ _ _
    have hd : MAX_SESSIONS_PER_DAY ≤
        (((check_rate_limit now ip st).2.1.sessions_by_date.lookup
          (payloadDateKey data nowKey)).getD []).length := by
      rw [hsess, hb]
      exact hlen
    have hres : (submit_session st now nowKey ip is_json data).1 =
        ApiResponse.error "Daily session limit reached. Try again tomorrow." 429 := by
      simp only [submit_session, hrl, hj, hv, Bool.not_true, Bool.false_eq_true,
        if_false, if_pos hd]
    have hstate : (submit_session st now nowKey ip is_json data).2.1.sessions_by_date =
        st.sessions_by_date := by
      simp only [submit_session, hrl, hj, hv, Bool.not_true, Bool.false_eq_true,
        if_false, if_pos hd]
      rw [log_sessions_eq]
      exact hsess
    refine ⟨hres, ?_, hstate, ?_⟩
    · intro m hm
      rw [hres] at hm
      exact absurd (by injection hm) (by decide : ¬(429 = 400))
    · rw [hstate, hb]

theorem claim_C4_witness :
    (List.lookup
        (payloadDateKey (some ⟨some (DurVal.coerced 60),
          some (TsVal.parsed ⟨0, "2024-01-15"⟩)⟩) "2024-01-16")
        (ServerState.mk [("2024-01-15", List.replicate 100 (7 : Int))] [] [] [] [] []).sessions_by_date =
      some (List.replicate 100 (7 : Int))) ∧
    (MAX_SESSIONS_PER_DAY ≤ (List.replicate 100 (7 : Int)).length) ∧
    ((check_rate_limit 5 "9.9.9.9"
        (ServerState.mk [("2024-01-15", List.replicate 100 (7 : Int))] [] [] [] [] [])).1 =
      true) ∧
    ((true : Bool) = true) ∧
    (validate_session_data
        (some ⟨some (DurVal.coerced 60), some (TsVal.parsed ⟨0, "2024-01-15"⟩)⟩) =
      Except.ok (true, "Valid")) ∧
    ((submit_session (ServerState.mk [("2024-01-15", List.replicate 100 (7 : Int))] [] [] [] [] [])
        5 "2024-01-16" "9.9.9.9" true
        (some ⟨some (DurVal.coerced 60), some (TsVal.parsed ⟨0, "2024-01-15"⟩)⟩)).1 =
      ApiResponse.error "Daily session limit reached. Try again tomorrow." 429 ∧
     (∀ m : String,
      (submit_session (ServerState.mk [("2024-01-15", List.replicate 100 (7 : Int))] [] [] [] [] [])
        5 "2024-01-16" "9.9.9.9" true
        (some ⟨some (DurVal.coerced 60), some (TsVal.parsed ⟨0, "2024-01-15"⟩)⟩)).1 ≠
        ApiResponse.error m 400) ∧
     (submit_session (ServerState.mk [("2024-01-15", List.replicate 100 (7 : Int))] [] [] [] [] [])
        5 "2024-01-16" "9.9.9.9" true
        (some ⟨some (DurVal.coerced 60), some (TsVal.parsed ⟨0, "2024-01-15"⟩)⟩)).2.1.sessions_by_date =
       (ServerState.mk [("2024-01-15", List.replicate 100 (7 : Int))] [] [] [] [] []).sessions_by_date ∧
     List.lookup
        (payloadDateKey (some ⟨some (DurVal.coerced 60),
          some (TsVal.parsed ⟨0, "2024-01-15"⟩)⟩) "2024-01-16")
        (submit_session (ServerState.mk [("2024-01-15", List.replicate 100 (7 : Int))] [] [] [] [] [])
          5 "2024-01-16" "9.9.9.9" true
          (some ⟨some (DurVal.coerced 60),
            some (TsVal.parsed ⟨0, "2024-01-15"⟩)⟩)).2.1.sessions_by_date =
      some (List.replicate 100 (7 : Int))) := by
  refine ⟨by decide, by decide, ?_, rfl, ?_, ?_⟩
  · rfl
  · norm_num [validate_session_data, MIN_SESSION_DURATION, MAX_SESSION_DURATION]
  · exact (claim_C4 (ServerState.mk [("2024-01-15", List.replicate 100 (7 : Int))] [] [] [] [] [])
      5 "2024-01-16" "9.9.9.9" true
      (some ⟨some (DurVal.coerced 60), some (TsVal.parsed ⟨0, "2024-01-15"⟩)⟩)).2
      (List.replicate 100 (7 : Int)) (by decide) (by decide) (by rfl) rfl
      (by norm_num [validate_session_data, MIN_SESSION_DURATION, MAX_SESSION_DURATION])

/-! ### Claim C3: the sliding-window rate limiter -/

theorem dropWhile_false_all {α : Type} (p : α → Bool) (l : List α)
    (h : ∀ x ∈ l, p x = false) : l.dropWhile p = l := by
  cases l with
  | nil => rfl
  | cons a t => simp [List.dropWhile_cons, h a (List.mem_cons_self a t)]

theorem dropWhile_true_all {α : Type} (p : α → Bool) (l : List α)
    (h : ∀ x ∈ l, p x = true) : l.dropWhile p = [] := by
  induction l with
  | nil => rfl
  | cons a t ih =>
    simp only [List.dropWhile_cons, h a (List.mem_cons_self a t), if_true]
    exact ih (fun x hx => h x (List.mem_cons_of_mem a hx))

/-- One admission step of `check_rate_limit` for a non-blocked client:
eviction happens first, a full window rejects without recording, and an
open window records the current time. -/
theorem crl_step (now : ℚ) (ip : String) (st : ServerState) (h : ip ∉ st.blocked_ips) :
    ((check_rate_limit now ip st).1 = false ↔
      MAX_REQUESTS_PER_MINUTE ≤
        (((st.rate_limit_storage.lookup ip).getD []).dropWhile
          (fun t => decide (60 < now - t))).length) ∧
    ((check_rate_limit now ip st).1 = false →
      (check_rate_limit now ip st).2.1.rate_limit_storage =
        setD st.rate_limit_storage ip
          (((st.rate_limit_storage.lookup ip).getD []).dropWhile
            (fun t => decide (60 < now - t)))) ∧
    ((check_rate_limit now ip st).1 = true →
      (check_rate_limit now ip st).2.1.rate_limit_storage =
        setD st.rate_limit_storage ip
          ((((st.rate_limit_storage.lookup ip).getD []).dropWhile
            (fun t => decide (60 < now - t))) ++ [now])) := by
  by_cases hlen : MAX_REQUESTS_PER_MINUTE ≤
      (((st.rate_limit_storage.lookup ip).getD []).dropWhile
        (fun t => decide (60 < now - t))).length
  · refine ⟨?_, ?_, ?_⟩
    · simp only [check_rate_limit, if_neg h, if_pos hlen]
      simp [hlen]
    · intro _
      simp only [check_rate_limit, if_neg h, if_pos hlen]
      simp [detect_rls_eq, log_rls_eq]
    · intro h'
      simp only [check_rate_limit, if_neg h, if_pos hlen] at h'
      exact absurd h' (by simp)
  · refine ⟨?_, ?_, ?_⟩
    · simp only [check_rate_limit, if_neg h, if_neg hlen]
      simp [hlen]
    · intro h'
      simp only [check_rate_limit, if_neg h, if_neg hlen] at h'
      exact absurd h' (by simp)
    · intro _
      simp only [check_rate_limit, if_neg h, if_neg hlen]

theorem crl_true_blocked_eq (now : ℚ) (ip : String) (st : ServerState) :
    (check_rate_limit now ip st).1 = true →
    (check_rate_limit now ip st).2.1.blocked_ips = st.blocked_ips := by
  simp only [check_rate_limit]
  split
  · intro h'
    simp at h'
  · split
    · intro h'
      simp at h'
    · intro _
      rfl

/-- The invariant of a run of in-window requests from a fresh queue: every
call accepts, the queue accumulates the timestamps, and the client stays
unblocked. -/
theorem crl_run (ip : String) (tlast : ℚ) :
    ∀ (ts : List ℚ) (st : ServerState) (done : List ℚ),
      ip ∉ st.blocked_ips →
      (st.rate_limit_storage.lookup ip).getD [] = done →
      done.length + ts.length ≤ MAX_REQUESTS_PER_MINUTE →
      (∀ t ∈ done, tlast - 60 ≤ t ∧ t ≤ tlast) →
      (∀ t ∈ ts, tlast - 60 ≤ t ∧ t ≤ tlast) →
      ip ∉ (crlFold ip st ts).blocked_ips ∧
      ((crlFold ip st ts).rate_limit_storage.lookup ip).getD [] = done ++ ts ∧
      (ts = [] ∨ (check_rate_limit (ts.headD 0) ip st).1 = true) := by
  intro ts
  induction ts with
  | nil =>
    intro st done h1 h2 _ _ _
    exact ⟨h1, by simpa [crlFold] using h2, Or.inl rfl⟩
  | cons t rest ih =>
    intro st done h1 h2 h3 h4 h5
    have hwin : ∀ x ∈ done, (fun x => decide (60 < t - x)) x = false := by
      intro x hx
      have hx1 := h4 x hx
      have ht := h5 t (List.mem_cons_self t rest)
      simp only [decide_eq_false_iff_not, not_lt]
      linarith [hx1.1, hx1.2, ht.1, ht.2]
    have hdrop : (((st.rate_limit_storage.lookup ip).getD []).dropWhile
        (fun x => decide (60 < t - x))) = done := by
      rw [h2]
      exact dropWhile_false_all _ _ hwin
    have hlen : ¬MAX_REQUESTS_PER_MINUTE ≤
        (((st.rate_limit_storage.lookup ip).getD []).dropWhile
          (fun x => decide (60 < t - x))).length := by
      rw [hdrop]
      simp only [MAX_REQUESTS_PER_MINUTE] at h3 ⊢
      simp only [List.length_cons] at h3
      omega
    have hiff := (crl_step t ip st h1).1
    have htrue : (check_rate_limit t ip st).1 = true := by
      cases hc : (check_rate_limit t ip st).1 with
      | false => exact absurd (hiff.mp hc) hlen
      | true => rfl
    have hstor : (check_rate_limit t ip st).2.1.rate_limit_storage =
        setD st.rate_limit_storage ip (done ++ [t]) := by
      rw [(crl_step t ip st h1).2.2 htrue, hdrop]
    have hblocked : (check_rate_limit t ip st).2.1.blocked_ips = st.blocked_ips :=
      crl_true_blocked_eq t ip st htrue
    have hstep := ih ((check_rate_limit t ip st).2.1) (done ++ [t])
      (by rw [hblocked]; exact h1)
      (by rw [hstor]; simp [lookup_setD])
      (by simp only [List.length_append, List.length_cons, List.length_nil] at h3 ⊢; omega)
      (by
        intro x hx
        rcases List.mem_append.mp hx with hx' | hx'
        · exact h4 x hx'
        · rw [List.mem_singleton.mp hx']
          exact h5 t (List.mem_cons_self t rest))
      (fun x hx => h5 x (List.mem_cons_of_mem t hx))
    have hfold : crlFold ip st (t :: rest) = crlFold ip ((check_rate_limit t ip st).2.1) rest := by
      simp [crlFold]
    refine ⟨by rw [hfold]; exact hstep.1, ?_, Or.inr (by simpa using htrue)⟩
    rw [hfold, hstep.2.1]
    simp

/-- Claim C3: for a non-blocked client each admission call first evicts
entries older than 60 seconds, rejects without recording exactly when 10 or
more remain, and records the call time otherwise; consequently a client
starting from an empty queue whose 11 requests all fall inside one 60-second
window has the first ten accepted and the eleventh rejected, while after 61
seconds of inactivity a request is accepted again. -/
theorem claim_C3 :
    (∀ (now : ℚ) (ip : String) (st : ServerState), ip ∉ st.blocked_ips →
      (((check_rate_limit now ip st).1 = false ↔
        MAX_REQUESTS_PER_MINUTE ≤
          (((st.rate_limit_storage.lookup ip).getD []).dropWhile
            (fun t => decide (60 < now - t))).length) ∧
      ((check_rate_limit now ip st).1 = false →
        (check_rate_limit now ip st).2.1.rate_limit_storage =
          setD st.rate_limit_storage ip
            (((st.rate_limit_storage.lookup ip).getD []).dropWhile
              (fun t => decide (60 < now - t)))) ∧
      ((check_rate_limit now ip st).1 = true →
        (check_rate_limit now ip st).2.1.rate_limit_storage =
          setD st.rate_limit_storage ip
            ((((st.rate_limit_storage.lookup ip).getD []).dropWhile
              (fun t => decide (60 < now - t))) ++ [now])))) ∧
    (∀ (ts : List ℚ) (tlast : ℚ) (ip : String) (st : ServerState),
      ip ∉ st.blocked_ips →
      (st.rate_limit_storage.lookup ip).getD [] = [] →
      ts.length = MAX_REQUESTS_PER_MINUTE →
      (∀ t ∈ ts, tlast - 60 ≤ t ∧ t ≤ tlast) →
      tlast - 60 ≤ tlast →
      (∀ pre t post, ts = pre ++ t :: post →
        (check_rate_limit t ip (crlFold ip st pre)).1 = true) ∧
      (check_rate_limit tlast ip (crlFold ip st ts)).1 = false) ∧
    (∀ (now : ℚ) (ip : String) (st : ServerState), ip ∉ st.blocked_ips →
      (∀ t ∈ (st.rate_limit_storage.lookup ip).getD [], t ≤ now - 61) →
      (check_rate_limit now ip st).1 = true) := by
  refine ⟨fun now ip st h => crl_step now ip st h, ?_, ?_⟩
  · intro ts tlast ip st h1 h2 hlen hwin _
    constructor
    · intro pre t post hsplit
      have hprewin : ∀ x ∈ pre, tlast - 60 ≤ x ∧ x ≤ tlast := by
        intro x hx
        exact hwin x (hsplit ▸ List.mem_append_left _ hx)
      have hprelen : pre.length + (t :: post).length = MAX_REQUESTS_PER_MINUTE := by
        rw [← hlen, hsplit]
        simp
      have hrun := crl_run ip tlast pre st [] h1 h2
        (by simp only [List.length_nil, List.length_cons] at hprelen ⊢; omega)
        (by intro x hx; simp at hx)
        hprewin
      have hq : ((crlFold ip st pre).rate_limit_storage.lookup ip).getD [] = pre := by
        simpa using hrun.2.1
      have hwt := hwin t (hsplit ▸ List.mem_append_right _ (List.mem_cons_self t post))
      have hdrop : (((crlFold ip st pre).rate_limit_storage.lookup ip).getD []).dropWhile
          (fun x => decide (60 < t - x)) = pre := by
        rw [hq]
        refine dropWhile_false_all _ _ ?_
        intro x hx
        have hx1 := hprewin x hx
        simp only [decide_eq_false_iff_not, not_lt]
        linarith [hx1.1, hx1.2, hwt.1, hwt.2]
      have hsmall : ¬MAX_REQUESTS_PER_MINUTE ≤
          ((((crlFold ip st pre).rate_limit_storage.lookup ip).getD []).dropWhile
            (fun x => decide (60 < t - x))).length := by
        rw [hdrop]
        simp only [MAX_REQUESTS_PER_MINUTE] at hprelen ⊢
        simp only [List.length_cons] at hprelen
        omega
      have hiff := (crl_step t ip (crlFold ip st pre) hrun.1).1
      cases hc : (check_rate_limit t ip (crlFold ip st pre)).1 with
      | false => exact absurd (hiff.mp hc) hsmall
      | true => rfl
    · have hrun := crl_run ip tlast ts st [] h1 h2
        (by simp [hlen])
        (by intro x hx; simp at hx)
        hwin
      have hq : ((crlFold ip st ts).rate_limit_storage.lookup ip).getD [] = ts := by
        simpa using hrun.2.1
      have hdrop : (((crlFold ip st ts).rate_limit_storage.lookup ip).getD []).dropWhile
          (fun x => decide (60 < tlast - x)) = ts := by
        rw [hq]
        refine dropWhile_false_all _ _ ?_
        intro x hx
        have hx1 := hwin x hx
        simp only [decide_eq_false_iff_not, not_lt]
        linarith [hx1.1, hx1.2]
      have hfull : MAX_REQUESTS_PER_MINUTE ≤
          ((((crlFold ip st ts).rate_limit_storage.lookup ip).getD []).dropWhile
            (fun x => decide (60 < tlast - x))).length := by
        rw [hdrop, hlen]
      exact ((crl_step tlast ip (crlFold ip st ts) hrun.1).1).mpr hfull
  · intro now ip st h1 hold
    have hdrop : (((st.rate_limit_storage.lookup ip).getD []).dropWhile
        (fun t => decide (60 < now - t))) = [] := by
      refine dropWhile_true_all _ _ ?_
      intro x hx
      have := hold x hx
      simp only [decide_eq_true_eq]
      linarith
    have hiff := (crl_step now ip st h1).1
    cases hc : (check_rate_limit now ip st).1 with
    | false =>
      have := hiff.mp hc
      rw [hdrop] at this
      simp [MAX_REQUESTS_PER_MINUTE] at this
    | true => rfl

theorem claim_C3_witness :
    ("c" ∉ (ServerState.mk [] [("c", [0])] [] [] [] []).blocked_ips) ∧
    (∀ t ∈ ((ServerState.mk [] [("c", [0])] [] [] [] []).rate_limit_storage.lookup "c").getD [],
      t ≤ (61 : ℚ) - 61) ∧
    (check_rate_limit 61 "c" (ServerState.mk [] [("c", [0])] [] [] [] [])).1 = true :=
  ⟨by simp, by
    intro t ht
    simp [List.lookup] at ht
    subst ht
    norm_num,
   claim_C3.2.2 61 "c" (ServerState.mk [] [("c", [0])] [] [] [] []) (by simp)
     (by
      intro t ht
      simp [List.lookup] at ht
      subst ht
      norm_num)⟩
